import Mathlib

/-!
Verification of the agent orchestration and patch-quality control loop of the
TDAD SWE-bench harness (`claudecode_n_codex_swebench/utils/qwen_mini_interface.py`).

The Python code is shallowly embedded: pure computations become Lean functions
over `String` / `List Char`, subprocess results (git, pytest, the LLM backend)
become explicit inputs, and the stateful loop-detection driver becomes a step
function over an explicit state record.  Python regular expressions used by the
code are transcribed as executable scanners over character lists with the same
matching semantics.
-/

/-! ## Python-style string primitives -/

/-- Whitespace test used by Python `str.strip` / `str.split` (ASCII commands). -/
def pyIsSpace (c : Char) : Bool := c.isWhitespace

/-- ASCII digit test, matching `\d` of the Python regexes on ASCII input. -/
def pyIsDigit (c : Char) : Bool := c.isDigit

/-- Word-character test for the regex `\b` boundary (`[A-Za-z0-9_]`). -/
def isWordChar (c : Char) : Bool := c.isAlphanum || c == '_'

/-- Split a character list at every separator satisfying `p`, keeping empty
segments, like Python `str.split(sep)`. -/
def splitOnPred (p : Char → Bool) : List Char → List (List Char)
  | [] => [[]]
  | c :: rest =>
    if p c then [] :: splitOnPred p rest
    else
      match splitOnPred p rest with
      | [] => [[c]]
      | l :: ls => (c :: l) :: ls

/-- The lines of a string, in the sense of the `re.MULTILINE` anchors used by
the gate regexes: segments between newline characters. -/
def pyLines (s : String) : List String :=
  (splitOnPred (fun c => c == '\n') s.toList).map String.mk

/-- Python `str.strip()` on a character list. -/
def stripChars (l : List Char) : List Char :=
  ((l.dropWhile pyIsSpace).reverse.dropWhile pyIsSpace).reverse

/-- Python `str.strip()`. -/
def pyStrip (s : String) : String := String.mk (stripChars s.toList)

/-- Substring test on character lists, like the Python `in` operator. -/
def containsSub (needle hay : List Char) : Bool :=
  hay.tails.any (fun t => needle.isPrefixOf t)

/-- Substring test on strings, like the Python `in` operator. -/
def containsStr (needle hay : String) : Bool := containsSub needle.toList hay.toList

/-- Python `str.split()` with no separator: maximal nonempty runs between
whitespace. -/
def pyTokens (l : List Char) : List (List Char) :=
  (splitOnPred pyIsSpace l).filter (fun t => !t.isEmpty)

/-- Python `lst[-n:]`. -/
def lastN {α : Type} (n : Nat) (l : List α) : List α := l.drop (l.length - n)

/-- Decimal rendering of a natural number, as Python `str`/f-string formatting. -/
def natStr (n : Nat) : String := Nat.repr n

theorem dropWhile_len_le (p : Char → Bool) (l : List Char) :
    (l.dropWhile p).length ≤ l.length := by
  induction l with
  | nil => simp [List.dropWhile]
  | cons c cs ih =>
    simp only [List.dropWhile]
    split
    · exact Nat.le_trans ih (Nat.le_succ _)
    · exact Nat.le_refl _

/-! ## Quality gate (`_validate_patch_quality`, lines 1143-1280)

The gate is a pure function of the `git diff HEAD` text plus the result of the
compile gate (which reads the file system and is therefore an explicit input
here), and of the two configurable knobs it consults (`self.max_changed_lines`
and `self.patch_compile_gate`).  All other thresholds are literal in the code
and stay literal here. -/

/-- Result record of `_check_compile_gate` (the byte-compilation scan of changed
Python files); produced from the file system, so it is an input of the model. -/
structure CompileGateResult where
  enabled : Bool
  python_files_changed : Nat
  compile_checked : Nat
  compile_failed : Nat
  compile_failed_files : List String
  compile_skipped_preexisting : Nat
  compile_preexisting_files : List String
deriving DecidableEq, Repr

/-- The all-zero compile-gate record used when `patch_compile_gate` is off. -/
def zeroCompileGate : CompileGateResult := ⟨false, 0, 0, 0, [], 0, []⟩

/-- The two gate knobs read from `self` by `_validate_patch_quality`. -/
structure GateConfig where
  max_changed_lines : Nat
  patch_compile_gate : Bool
deriving DecidableEq, Repr

/-- Defaults set in `QwenMiniInterface.__init__`. -/
def defaultGateConfig : GateConfig := ⟨200, true⟩

/-- A line counted by `re.findall(r"^diff --git ", diff, re.MULTILINE)`. -/
def isDiffHeaderLine (l : String) : Bool := "diff --git ".toList.isPrefixOf l.toList

/-- A line matched by `^-(?!--).` : a leading minus, not followed by two more
context characters forming `--`, and at least one character after the minus. -/
def isRemovedLine (l : String) : Bool :=
  match l.toList with
  | '-' :: rest => !(['-', '-'].isPrefixOf rest) && !rest.isEmpty
  | _ => false

/-- A line matched by `^\+(?!\+\+\+)(.*)$` : a leading plus whose next three
characters are not all plus signs.  Note the lookahead runs after the first
plus is consumed, so only lines that start with four plus signs are excluded;
a `+++ b/...` file header is matched. -/
def isAddedLine (l : String) : Bool :=
  match l.toList with
  | '+' :: rest => !(['+', '+', '+'].isPrefixOf rest)
  | _ => false

/-- The capture group of `^\+(?!\+\+\+)(.*)$` : everything after the plus. -/
def addedBody (l : String) : String := String.mk (l.toList.drop 1)

/-- `files_changed` of the gate. -/
def files_changed_count (diff : String) : Nat :=
  ((pyLines diff).filter isDiffHeaderLine).length

/-- `removed_lines_count` of the gate. -/
def removed_lines_count (diff : String) : Nat :=
  ((pyLines diff).filter isRemovedLine).length

/-- `added_lines` of the gate: the capture groups of the added-line regex. -/
def added_lines (diff : String) : List String :=
  ((pyLines diff).filter isAddedLine).map addedBody

/-- `added_lines_count` of the gate. -/
def added_lines_count (diff : String) : Nat := (added_lines diff).length

/-- `changed_lines_total` of the gate. -/
def changed_lines_total (diff : String) : Nat :=
  removed_lines_count diff + added_lines_count diff

/-- `normalized_added`: stripped nonblank added lines. -/
def normalized_added (diff : String) : List String :=
  ((added_lines diff).map pyStrip).filter (fun s => s ≠ "")

/-- `duplicate_line_max_count`: the largest multiplicity among normalized added
lines (`max(Counter(...).values(), default=0)`). -/
def duplicate_line_max_count (diff : String) : Nat :=
  let na := normalized_added diff
  (na.map (fun s => na.count s)).foldr max 0

/-- The placeholder markers scanned for in added lines. -/
def placeholder_markers : List String :=
  ["TODO", "FIXME", "Placeholder", "NotImplementedError"]

/-- `any(marker in line for line in added_lines for marker in placeholder_markers)`. -/
def has_placeholder (diff : String) : Bool :=
  (added_lines diff).any (fun l => placeholder_markers.any (fun m => containsStr m l))

/-- Greedy tail of `\((.*)\)\s*:` — the capture runs to the last position where
a closing parenthesis is followed by optional whitespace and a colon. -/
def lastDefCapture : List Char → Option (List Char)
  | [] => none
  | c :: cs =>
    match lastDefCapture cs with
    | some cap => some (c :: cap)
    | none =>
      if c == ')' && ((cs.dropWhile pyIsSpace).head? == some ':') then some []
      else none

/-- One line of `^<m>def\s+([A-Za-z_][A-Za-z0-9_]*)\s*\((.*)\)\s*:` where `m`
is `-` or `+`; returns the two capture groups (name, parameters). -/
def parse_def_line (marker : Char) (l : String) : Option (String × String) :=
  match l.toList with
  | m :: 'd' :: 'e' :: 'f' :: r1 =>
    if m == marker then
      match r1 with
      | [] => none
      | c1 :: _ =>
        if pyIsSpace c1 then
          let r2 := r1.dropWhile pyIsSpace
          match r2 with
          | [] => none
          | c2 :: _ =>
            if c2.isAlpha || c2 == '_' then
              let identRun := r2.takeWhile isWordChar
              let r3 := (r2.dropWhile isWordChar).dropWhile pyIsSpace
              match r3 with
              | '(' :: r4 =>
                match lastDefCapture r4 with
                | some cap => some (String.mk identRun, String.mk cap)
                | none => none
              | _ => none
            else none
        else none
    else none
  | _ => none

/-- `removed_defs` of the gate. -/
def removed_defs (diff : String) : List (String × String) :=
  (pyLines diff).filterMap (parse_def_line '-')

/-- `added_defs` of the gate. -/
def added_defs (diff : String) : List (String × String) :=
  (pyLines diff).filterMap (parse_def_line '+')

/-- `"".join(params.split())`: the parameter text with all whitespace removed. -/
def normParams (params : String) : String :=
  String.mk (params.toList.filter (fun c => !pyIsSpace c))

/-- `signature_change_detected` of the gate. -/
def signature_change_detected (diff : String) : Bool :=
  let rdefs := removed_defs diff
  let adefs := added_defs diff
  let firstPass := adefs.any (fun na =>
    let prev := (rdefs.filter (fun rd => rd.1 == na.1)).map (fun rd => normParams rd.2)
    !prev.isEmpty && !(prev.contains (normParams na.2)))
  if firstPass then true
  else if !rdefs.isEmpty && adefs.isEmpty then true
  else if !adefs.isEmpty && rdefs.isEmpty then true
  else false

/-- The compile-gate record the decision actually uses: the real scan when the
compile gate is enabled, the all-zero default otherwise. -/
def effectiveCompileGate (cfg : GateConfig) (cg : CompileGateResult) : CompileGateResult :=
  if cfg.patch_compile_gate then cg else zeroCompileGate

/-- `fail_reasons` of the gate, in the order the code appends them. -/
def fail_reasons_of (cfg : GateConfig) (diff : String) (cg : CompileGateResult) :
    List String :=
  (if pyStrip diff = "" then ["empty_diff"] else []) ++
  (if files_changed_count diff > 3 then
    ["too_many_files:" ++ natStr (files_changed_count diff)] else []) ++
  (if cfg.max_changed_lines > 0 ∧ changed_lines_total diff > cfg.max_changed_lines then
    ["too_many_changed_lines:" ++ natStr (changed_lines_total diff) ++
      "_limit_" ++ natStr cfg.max_changed_lines] else []) ++
  (if removed_lines_count diff > 50 ∧ added_lines_count diff > 0 ∧
      removed_lines_count diff > 5 * added_lines_count diff then
    ["catastrophic_deletion:" ++ natStr (removed_lines_count diff) ++
      "_removed_vs_" ++ natStr (added_lines_count diff) ++ "_added"] else []) ++
  (if duplicate_line_max_count diff ≥ 4 then
    ["repetitive_code:max_repeat=" ++ natStr (duplicate_line_max_count diff)] else []) ++
  (if has_placeholder diff then ["placeholder_code"] else []) ++
  (if (effectiveCompileGate cfg cg).compile_failed_files ≠ [] then
    ["syntax_compile_failed:" ++
      String.intercalate "|" (effectiveCompileGate cfg cg).compile_failed_files] else [])

/-- `warn_reasons` of the gate, in the order the code appends them. -/
def warn_reasons_of (cfg : GateConfig) (diff : String) (cg : CompileGateResult) :
    List String :=
  (if signature_change_detected diff then ["potential_signature_change"] else []) ++
  (if cfg.patch_compile_gate ∧ (effectiveCompileGate cfg cg).compile_skipped_preexisting > 0 then
    ["compile_preexisting_failures:" ++
      natStr (effectiveCompileGate cfg cg).compile_skipped_preexisting] else [])

/-- The decision record returned by `_validate_patch_quality` (metrics that no
claim consults are exposed through the counting functions above instead of
being duplicated as fields). -/
structure QualityDecision where
  valid : Bool
  severity : String
  reason : String
  fail_reasons : List String
  warn_reasons : List String
  diff : String
deriving DecidableEq, Repr

/-- `_validate_patch_quality`: fail if any fail reason, else warn if any warn
reason, else info. -/
def validate_patch_quality (cfg : GateConfig) (diff : String) (cg : CompileGateResult) :
    QualityDecision :=
  let fr := fail_reasons_of cfg diff cg
  let wr := warn_reasons_of cfg diff cg
  if fr ≠ [] then
    ⟨false, "fail", String.intercalate "," fr, fr, wr, diff⟩
  else if wr ≠ [] then
    ⟨true, "warn", String.intercalate "," wr, fr, wr, diff⟩
  else
    ⟨true, "info", "ok", fr, wr, diff⟩

/-- `_extract_patch`: the diff when the decision is valid, otherwise the empty
string. -/
def extract_patch (cfg : GateConfig) (diff : String) (cg : CompileGateResult) : String :=
  let v := validate_patch_quality cfg diff cg
  if v.valid then v.diff else ""

/-! ## Test gate (`_run_pytest_subset`, `_parse_pytest_counts`, `_evaluate_candidate`) -/

/-- Result of one pytest subset run as consumed by `_evaluate_candidate`. -/
structure PytestResult where
  passed : Nat
  failed : Nat
  returncode : Int
deriving DecidableEq, Repr

/-- Observable outcome of the `subprocess.run(["pytest", "-q", ...])` call:
whether it hit the hard timeout, its exit code, and the first matches of the
regexes `(\d+)\s+passed` and `(\d+)\s+failed` over stdout plus stderr (absent
matches are `none`). -/
structure PytestInvocation where
  timed_out : Bool
  returncode : Int
  passed_match : Option Nat
  failed_match : Option Nat
deriving DecidableEq, Repr

/-- `_parse_pytest_counts`: each counter defaults to 0 when its regex does not
match. -/
def parse_pytest_counts (passed_match failed_match : Option Nat) : Nat × Nat :=
  (passed_match.getD 0, failed_match.getD 0)

/-- `_run_pytest_subset`: parse the counters, fall back to the return code when
both are zero, clamp both counters to the number of requested tests; a timeout
yields zero passed, everything failed, return code 124. -/
def run_pytest_subset (tests : List String) (inv : PytestInvocation) : PytestResult :=
  if inv.timed_out then ⟨0, tests.length, 124⟩
  else
    let pf := parse_pytest_counts inv.passed_match inv.failed_match
    let p1 := if pf.1 + pf.2 = 0 then (if inv.returncode = 0 then tests.length else pf.1) else pf.1
    let f1 := if pf.1 + pf.2 = 0 then (if inv.returncode = 0 then pf.2 else max 1 tests.length) else pf.2
    ⟨min p1 tests.length, min f1 tests.length, inv.returncode⟩

/-- The metrics dictionary built by `_evaluate_candidate`; dictionary entries
that can hold Python `None` are `Option`s here (`none` models `None`). -/
structure TestMetrics where
  f2p_total : Option Nat
  f2p_passed : Option Nat
  f2p_failed : Option Nat
  f2p_pass_rate : Option Rat
  f2p_all_passed : Option Bool
  p2p_smoke_total : Option Nat
  p2p_smoke_failures : Option Nat
  clean_resolution : Option Bool
deriving DecidableEq, Repr

/-- `_evaluate_candidate`.  The pytest subprocess is abstracted as `runner`
(what `_run_pytest_subset` returns for a given test list); `smoke_count` is
`self.p2p_smoke_count` (default 10). -/
def evaluate_candidate (f2p p2p : List String) (smoke_count : Nat)
    (require_test_checks : Bool) (runner : List String → PytestResult) : TestMetrics :=
  let base : TestMetrics :=
    ⟨some f2p.length, none, none, none, some false, none, none, none⟩
  if !require_test_checks then base
  else
    let m1 :=
      if f2p ≠ [] then
        let r := runner f2p
        { base with
          f2p_passed := some r.passed
          f2p_failed := some r.failed
          f2p_pass_rate := some ((r.passed : Rat) / (max f2p.length 1 : Rat))
          f2p_all_passed := some (r.failed == 0) }
      else base
    let smoke := p2p.take smoke_count
    let m2 :=
      if smoke ≠ [] then
        { m1 with
          p2p_smoke_total := some smoke.length
          p2p_smoke_failures := some (runner smoke).failed }
      else m1
    if m2.f2p_all_passed.getD false then
      match m2.p2p_smoke_failures with
      | some k => { m2 with clean_resolution := some (k == 0) }
      | none => m2
    else m2

/-! ## Agent driver (`_run_agent_with_controls` and its `logging_add_message`
hook, lines 509-670).

The LLM backend, the shell and git are external, so a run is modelled as a
sequence of intercepted `add_message` events: the fenced bash commands found in
each assistant message, and for each user observation its content together with
the diff signature `_compute_diff_signature` returns at that moment. -/

/-- `self.loop_policy`. -/
inductive LoopPolicy where
  | off
  | warn
  | strict
deriving DecidableEq, Repr

/-- Driver knobs read from `self`, plus the `sys.platform == "darwin"` test of
the sed warning. -/
structure DriverConfig where
  loop_policy : LoopPolicy
  search_streak_limit : Nat
  no_diff_streak_limit : Nat
  repeated_fail_limit : Nat
  sed_fail_limit : Nat
  is_darwin : Bool
deriving DecidableEq, Repr

/-- Defaults set in `QwenMiniInterface.__init__` (limits 8, 8, 3, 2), on a
non-darwin platform. -/
def defaultDriverConfig (p : LoopPolicy) : DriverConfig := ⟨p, 8, 8, 3, 2, false⟩

/-- The mutable detection state captured by the closure (`last_cmd`,
`command_history`, `loop_abort_reason` and the `diff_state` dictionary). -/
structure DriverState where
  last_cmd : String
  command_history : List String
  loop_abort_reason : String
  prev_sig : String
  seen_nonempty : Bool
  no_diff_streak : Nat
  search_streak : Nat
  failed_cmd_streak : Nat
  failed_cmd_norm : String
  sed_fail_streak : Nat
deriving DecidableEq, Repr

/-- Initial state: `prev_sig` is the diff signature computed when the driver
starts, everything else empty or zero. -/
def initDriverState (sig0 : String) : DriverState :=
  ⟨"", [], "", sig0, false, 0, 0, 0, "", 0⟩

/-- Decimal digits to a natural number. -/
def digitsToNat (l : List Char) : Nat :=
  l.foldl (fun a c => a * 10 + (c.toNat - 48)) 0

/-- Match of `<returncode>(-?\d+)</returncode>` anchored at the head of the
list: the literal open tag, an optional minus sign, a maximal nonempty digit
run, then the literal close tag. -/
def rc_match_at (l : List Char) : Option Int :=
  if "<returncode>".toList.isPrefixOf l then
    let r1 := l.drop 12
    let pr : Bool × List Char :=
      match r1 with
      | '-' :: t => (true, t)
      | _ => (false, r1)
    let ds := pr.2.takeWhile pyIsDigit
    let r3 := pr.2.dropWhile pyIsDigit
    if ds ≠ [] ∧ "</returncode>".toList.isPrefixOf r3 then
      some (if pr.1 then -(digitsToNat ds : Int) else (digitsToNat ds : Int))
    else none
  else none

/-- `re.search` semantics: try `rc_match_at` at every start position. -/
def rc_search : List Char → Option Int
  | [] => none
  | c :: cs =>
    match rc_match_at (c :: cs) with
    | some v => some v
    | none => rc_search cs

/-- `_extract_return_code`: 0 when the pattern does not match. -/
def extract_return_code (s : String) : Int := (rc_search s.toList).getD 0

/-- Maximal runs of characters sharing the same word-character status, in
order; the building block for the `\b` boundaries of `re.sub(r"\b\d+\b", ...)`. -/
def runsBy : List Char → List (List Char)
  | [] => []
  | c :: cs =>
    match runsBy cs with
    | [] => [[c]]
    | [] :: rs => [c] :: [] :: rs
    | (d :: ds) :: rs =>
      if isWordChar c == isWordChar d then (c :: d :: ds) :: rs
      else [c] :: (d :: ds) :: rs

/-- `re.sub(r"\b\d+\b", "<N>", ...)`: a digit run matches exactly when both of
its neighbours are non-word characters or string ends, i.e. when it is a
maximal word-character run consisting solely of digits; every such run is
replaced by `<N>`. -/
def replaceNumWords (l : List Char) : List Char :=
  ((runsBy l).map
    (fun seg => if !seg.isEmpty && seg.all pyIsDigit then ['<', 'N', '>'] else seg)).flatten

/-- `_normalize_command`: collapse whitespace, replace standalone integers by
`<N>`, truncate to 400 characters; empty for an empty command. -/
def normalize_command (cmd : String) : String :=
  if cmd = "" then ""
  else String.mk ((replaceNumWords (List.intercalate [' '] (pyTokens cmd.toList))).take 400)

/-- `cmd.split()[0] if cmd.split() else ""`. -/
def base_command (cmd : String) : String :=
  match pyTokens cmd.toList with
  | [] => ""
  | t :: _ => String.mk t

/-- The search commands of the search-only-streak heuristic. -/
def search_bases : List String := ["find", "grep", "rg", "ls"]

/-- Warning injected when sed keeps failing on macOS. -/
def macos_sed_warning : String :=
  "<warning>macOS sed requires `sed -i '' ...`. Prefer python-based edits if sed keeps failing.</warning>"

/-- Warning injected after repeated package-import attempts. -/
def import_warning : String :=
  "<warning>STOP importing package modules. Use source files directly (`cat`, `grep`, `nl`).</warning>"

/-- Final warning injected when an abort reason fires. -/
def abort_warning : String :=
  "<warning>Trajectory aborted due to repeated low-signal behavior. Submit and restart with a different strategy.</warning>"

/-- Output of one user-observation step: the new state, the content actually
forwarded to the wrapped `add_message`, and the abort reason computed during
this step (empty when no threshold fired here). -/
structure StepOut where
  state : DriverState
  content : String
  abort_now : String
deriving DecidableEq, Repr

/-- The detection block of `logging_add_message` for one user observation with
content `content`, at a moment when `_compute_diff_signature` returns `sig`.
Runs only when the loop policy is not `off`. -/
def step_user (cfg : DriverConfig) (st : DriverState) (content sig : String) : StepOut :=
  let rc := extract_return_code content
  let cmd := st.last_cmd
  let cmd_norm := normalize_command cmd
  let base_cmd := base_command cmd
  let fnorm := if rc ≠ 0 ∧ cmd_norm ≠ "" then
      (if st.failed_cmd_norm = cmd_norm then st.failed_cmd_norm else cmd_norm) else ""
  let fstreak := if rc ≠ 0 ∧ cmd_norm ≠ "" then
      (if st.failed_cmd_norm = cmd_norm then st.failed_cmd_streak + 1 else 1) else 0
  let abort1 :=
    if rc ≠ 0 ∧ cmd_norm ≠ "" ∧ fstreak ≥ cfg.repeated_fail_limit then
      "repeated_failing_command:" ++ base_cmd ++ " x" ++ natStr fstreak
    else ""
  let sstreak := if base_cmd ∈ search_bases then st.search_streak + 1 else 0
  let abort2 :=
    if sstreak ≥ cfg.search_streak_limit ∧ abort1 = "" then
      "search_only_streak:" ++ natStr sstreak
    else abort1
  let sed_hit := containsStr "sed -i" cmd ∧ rc ≠ 0
  let sedstreak := if sed_hit then st.sed_fail_streak + 1 else 0
  let warn_sed :=
    if sed_hit ∧ ¬ (containsStr "sed -i ''" cmd = true) ∧ cfg.is_darwin then
      [macos_sed_warning] else []
  let abort3 :=
    if sed_hit ∧ sedstreak ≥ cfg.sed_fail_limit ∧ abort2 = "" then
      "sed_fail_streak:" ++ natStr sedstreak
    else abort2
  let seen := st.seen_nonempty || (sig ≠ "EMPTY")
  let ndstreak :=
    if seen then (if sig = st.prev_sig then st.no_diff_streak + 1 else 0)
    else st.no_diff_streak
  let abort4 :=
    if seen = true ∧ ndstreak ≥ cfg.no_diff_streak_limit ∧ abort3 = "" then
      "no_diff_streak:" ++ natStr ndstreak
    else abort3
  let import_cmds := (lastN 3 st.command_history).filter
    (fun c => containsStr "python3 -c" c && containsStr "import " c)
  let warn_import := if import_cmds.length ≥ 2 then [import_warning] else []
  let warn_abort := if abort4 ≠ "" then [abort_warning] else []
  let warnings := warn_sed ++ warn_import ++ warn_abort
  let content2 :=
    if warnings ≠ [] then String.intercalate "\n" warnings ++ "\n" ++ content else content
  ⟨{ st with
      failed_cmd_norm := fnorm
      failed_cmd_streak := fstreak
      search_streak := sstreak
      sed_fail_streak := sedstreak
      seen_nonempty := seen
      no_diff_streak := ndstreak
      prev_sig := sig
      loop_abort_reason := if abort4 ≠ "" then abort4 else st.loop_abort_reason },
    content2, abort4⟩

/-- The assistant branch of `logging_add_message`: remember the first fenced
bash block (stripped) and append it to the command history. -/
def step_assistant (st : DriverState) (cmds : List String) : DriverState :=
  match cmds with
  | [] => st
  | c :: _ =>
    { st with
        last_cmd := pyStrip c
        command_history := st.command_history ++ [pyStrip c] }

/-- One intercepted `add_message` event.  For an assistant message, `cmds` is
what `re.findall` returns for its fenced ```bash blocks; for a user message,
`sig` is the diff signature git reports at that moment. -/
inductive Msg where
  | assistant (content : String) (cmds : List String)
  | user (content : String) (sig : String)
  | other (role : String) (content : String)
deriving DecidableEq, Repr

/-- Process the event stream: returns the final detection state, the messages
forwarded to the wrapped `add_message` as (role, content) pairs, and whether a
strict-policy `LoopAbortError` was raised (which stops processing). -/
def runMsgs (cfg : DriverConfig) :
    DriverState → List Msg → DriverState × List (String × String) × Bool
  | st, [] => (st, [], false)
  | st, Msg.assistant c cmds :: rest =>
    let st2 := step_assistant st cmds
    let r := runMsgs cfg st2 rest
    (r.1, ("assistant", c) :: r.2.1, r.2.2)
  | st, Msg.user c sig :: rest =>
    if cfg.loop_policy = LoopPolicy.off then
      let r := runMsgs cfg st rest
      (r.1, ("user", c) :: r.2.1, r.2.2)
    else
      let so := step_user cfg st c sig
      if cfg.loop_policy = LoopPolicy.strict ∧ so.state.loop_abort_reason ≠ "" then
        (so.state, [("user", so.content)], true)
      else
        let r := runMsgs cfg so.state rest
        (r.1, ("user", so.content) :: r.2.1, r.2.2)
  | st, Msg.other role c :: rest =>
    let r := runMsgs cfg st rest
    (r.1, (role, c) :: r.2.1, r.2.2)

/-- The run-result dictionary of `_run_agent_with_controls` (steps, cost and
elapsed are external measurements and omitted).  `agent_status` and
`agent_message` are what `agent.run` returns when it completes without a
strict abort. -/
structure RunResult where
  status : String
  message : String
  loop_abort_reason : String
  emitted : List (String × String)
  aborted : Bool
deriving DecidableEq, Repr

/-- `_run_agent_with_controls` over an event stream. -/
def run_agent_with_controls (cfg : DriverConfig) (sig0 : String) (msgs : List Msg)
    (agent_status agent_message : String) : RunResult :=
  let r := runMsgs cfg (initDriverState sig0) msgs
  if r.2.2 then
    ⟨"LoopAborted", r.1.loop_abort_reason, r.1.loop_abort_reason, r.2.1, true⟩
  else
    ⟨agent_status, agent_message, r.1.loop_abort_reason, r.2.1, false⟩

/-! ## Candidate records, scoring and best-candidate selection
(`execute_code_cli` lines 405-444, `_score_candidate` lines 790-798). -/

/-- The candidate fields consulted by scoring, selection and the claims. -/
structure Candidate where
  attempt : Nat
  prediction : String
  status : String
  loop_abort_reason : String
  f2p_pass_rate : Option Rat
  p2p_smoke_failures : Option Nat
  clean_resolution : Option Bool
  patch_gate_valid : Bool
  patch_gate_reason : String
  patch_gate_severity : String
deriving DecidableEq, Repr

/-- The candidate record built at the end of one attempt (lines 405-424). -/
def mkCandidate (attempt : Nat) (patch : String) (r : RunResult)
    (gate : QualityDecision) (m : TestMetrics) : Candidate :=
  ⟨attempt, patch, r.status, r.loop_abort_reason, m.f2p_pass_rate,
    m.p2p_smoke_failures, m.clean_resolution, gate.valid, gate.reason, gate.severity⟩

/-- The Python score tuple, compared lexicographically from the left. -/
abbrev ScoreT := Lex (Int × Lex (Rat × Lex (Int × Lex (Int × Int))))

/-- The `loop_penalty` component: 1 exactly when `loop_abort_reason` is a
nonempty (truthy) string. -/
def loop_penalty_of (c : Candidate) : Int :=
  if c.loop_abort_reason ≠ "" then 1 else 0

/-- `_score_candidate`. -/
def score_candidate (c : Candidate) : ScoreT :=
  let patch_chars : Int := c.prediction.length
  let non_empty : Int := if c.prediction.length > 0 then 1 else 0
  let f2p_score : Rat := c.f2p_pass_rate.getD 0
  let p2p_penalty : Int := (c.p2p_smoke_failures.getD 0 : Int)
  toLex (non_empty,
    toLex (f2p_score, toLex (-p2p_penalty, toLex (-(loop_penalty_of c), -patch_chars))))

/-- The scoring tuple exactly as the specification words it: non-empty patch
flag, pass rate with nulls as 0, minus smoke failures with nulls as 0, minus
the loop-aborted flag, minus the patch size. -/
def spec_score (c : Candidate) : ScoreT :=
  toLex ((if c.prediction ≠ "" then (1 : Int) else 0),
    toLex (c.f2p_pass_rate.getD 0,
      toLex (-(((c.p2p_smoke_failures.getD 0) : Nat) : Int),
        toLex (-(if c.loop_abort_reason ≠ "" then (1 : Int) else 0),
          -(c.prediction.length : Int)))))

/-- One step of the best-candidate fold of `execute_code_cli`:
`if best_score is None or score > best_score` replaces the current best. -/
def select_step (best : Option Candidate) (c : Candidate) : Option Candidate :=
  match best with
  | none => some c
  | some b => if score_candidate b < score_candidate c then some c else some b

/-- The best-candidate fold of `execute_code_cli`: the first candidate with the
strictly greatest score wins. -/
def select_best (cands : List Candidate) : Option Candidate :=
  cands.foldl select_step none

/-! ## Repository setup (`_setup_repository`, lines 919-958) -/

/-- One `subprocess.run` invocation: its argument vector, whether an explicit
`cwd` was passed, and the `timeout` keyword if one was passed. -/
structure ProcCall where
  argv : List String
  cwd_set : Bool
  timeout : Option Nat
deriving DecidableEq, Repr

/-- The git invocations `_setup_repository` performs, in order:
shallow clone, full clone when the shallow clone failed, unshallow fetch,
checkout of the base commit.  None of the four `subprocess.run` calls in the
source passes a `timeout` keyword. -/
def setup_repository_calls (repo base_commit repo_path : String)
    (shallow_clone_fails : Bool) : List ProcCall :=
  let repo_url := "https://github.com/" ++ repo
  [⟨["git", "clone", "--depth", "1", "--single-branch", repo_url, repo_path], false, none⟩] ++
  (if shallow_clone_fails then [⟨["git", "clone", repo_url, repo_path], false, none⟩] else []) ++
  [⟨["git", "fetch", "--unshallow"], true, none⟩,
    ⟨["git", "checkout", base_commit], true, none⟩]

/-! ## Gate lemmas -/

/-- Prefix test on strings (`startswith`). -/
def strHasPrefix (p s : String) : Bool := p.toList.isPrefixOf s.toList

theorem validate_eq_fail (cfg : GateConfig) (diff : String) (cg : CompileGateResult)
    (h : fail_reasons_of cfg diff cg ≠ []) :
    validate_patch_quality cfg diff cg =
      ⟨false, "fail", String.intercalate "," (fail_reasons_of cfg diff cg),
        fail_reasons_of cfg diff cg, warn_reasons_of cfg diff cg, diff⟩ := by
  unfold validate_patch_quality
  simp [h]

theorem validate_eq_warn (cfg : GateConfig) (diff : String) (cg : CompileGateResult)
    (hf : fail_reasons_of cfg diff cg = []) (hw : warn_reasons_of cfg diff cg ≠ []) :
    validate_patch_quality cfg diff cg =
      ⟨true, "warn", String.intercalate "," (warn_reasons_of cfg diff cg),
        fail_reasons_of cfg diff cg, warn_reasons_of cfg diff cg, diff⟩ := by
  unfold validate_patch_quality
  simp [hf, hw]

theorem validate_eq_info (cfg : GateConfig) (diff : String) (cg : CompileGateResult)
    (hf : fail_reasons_of cfg diff cg = []) (hw : warn_reasons_of cfg diff cg = []) :
    validate_patch_quality cfg diff cg =
      ⟨true, "info", "ok", fail_reasons_of cfg diff cg, warn_reasons_of cfg diff cg, diff⟩ := by
  unfold validate_patch_quality
  simp [hf, hw]

theorem validate_fail_reasons_eq (cfg : GateConfig) (diff : String) (cg : CompileGateResult) :
    (validate_patch_quality cfg diff cg).fail_reasons = fail_reasons_of cfg diff cg := by
  by_cases hf : fail_reasons_of cfg diff cg = []
  · by_cases hw : warn_reasons_of cfg diff cg = []
    · rw [validate_eq_info cfg diff cg hf hw]
    · rw [validate_eq_warn cfg diff cg hf hw]
  · rw [validate_eq_fail cfg diff cg hf]

theorem validate_warn_reasons_eq (cfg : GateConfig) (diff : String) (cg : CompileGateResult) :
    (validate_patch_quality cfg diff cg).warn_reasons = warn_reasons_of cfg diff cg := by
  by_cases hf : fail_reasons_of cfg diff cg = []
  · by_cases hw : warn_reasons_of cfg diff cg = []
    · rw [validate_eq_info cfg diff cg hf hw]
    · rw [validate_eq_warn cfg diff cg hf hw]
  · rw [validate_eq_fail cfg diff cg hf]

theorem extract_patch_of_fail (cfg : GateConfig) (diff : String) (cg : CompileGateResult)
    (h : fail_reasons_of cfg diff cg ≠ []) :
    extract_patch cfg diff cg = "" := by
  unfold extract_patch
  rw [validate_eq_fail cfg diff cg h]
  simp

theorem mem_if_singleton {c : Prop} [Decidable c] {r s : String}
    (h : r ∈ (if c then [s] else [])) : r = s := by
  split at h
  · simpa using h
  · cases h

theorem mem_if_singleton_of {c : Prop} [Decidable c] {s : String}
    (h : c) : s ∈ (if c then [s] else []) := by
  simp [h]

theorem strHasPrefix_ne_first {P r : String} {p0 r0 : Char} {pt rt : List Char}
    (hp : P.toList = p0 :: pt) (hr : r.toList = r0 :: rt) (hne : (p0 == r0) = false) :
    strHasPrefix P r = false := by
  simp only [strHasPrefix, hp, hr, List.isPrefixOf, hne, Bool.false_and]

theorem toList_append (a b : String) : (a ++ b).toList = a.toList ++ b.toList := by
  simp [String.toList]

/-- C1: severity is `fail` exactly when some fail reason is present, else `warn`
exactly when some warn reason is present, else `info`; and a `fail` decision
forces `_extract_patch` to return the empty string, hence the candidate record
built from it has an empty prediction. -/
theorem C1_quality_gate_fail_empty_prediction :
    ∀ (cfg : GateConfig) (diff : String) (cg : CompileGateResult),
    ((validate_patch_quality cfg diff cg).severity = "fail" ↔
      (validate_patch_quality cfg diff cg).fail_reasons ≠ []) ∧
    ((validate_patch_quality cfg diff cg).severity = "warn" ↔
      ((validate_patch_quality cfg diff cg).fail_reasons = [] ∧
        (validate_patch_quality cfg diff cg).warn_reasons ≠ [])) ∧
    ((validate_patch_quality cfg diff cg).severity = "info" ↔
      ((validate_patch_quality cfg diff cg).fail_reasons = [] ∧
        (validate_patch_quality cfg diff cg).warn_reasons = [])) ∧
    ((validate_patch_quality cfg diff cg).severity = "fail" →
      extract_patch cfg diff cg = "" ∧
      ∀ (att : Nat) (r : RunResult) (m : TestMetrics),
        (mkCandidate att (extract_patch cfg diff cg) r
          (validate_patch_quality cfg diff cg) m).prediction = "") := by
  intro cfg diff cg
  by_cases hf : fail_reasons_of cfg diff cg = []
  · by_cases hw : warn_reasons_of cfg diff cg = []
    · simp [validate_eq_info cfg diff cg hf hw, hf, hw, extract_patch, mkCandidate]
    · simp [validate_eq_warn cfg diff cg hf hw, hf, hw, extract_patch, mkCandidate]
  · have he := extract_patch_of_fail cfg diff cg hf
    simp [validate_eq_fail cfg diff cg hf, hf, he, mkCandidate]

/-- Witness for C1: the empty diff fails the gate and the extracted patch is
empty. -/
theorem C1_quality_gate_fail_empty_prediction_witness :
    (validate_patch_quality defaultGateConfig "" zeroCompileGate).severity = "fail" ∧
    extract_patch defaultGateConfig "" zeroCompileGate = "" :=
  ⟨by decide,
    ((C1_quality_gate_fail_empty_prediction defaultGateConfig "" zeroCompileGate).2.2.2
      (by decide)).1⟩

/-! ## Line-splitting lemmas for the concrete diffs -/

theorem splitOnPred_ne_nil (p : Char → Bool) (l : List Char) : splitOnPred p l ≠ [] := by
  induction l with
  | nil => simp [splitOnPred]
  | cons c cs ih =>
    simp only [splitOnPred]
    cases hpc : p c
    · simp only [Bool.false_eq_true, if_false]
      split <;> simp
    · simp

theorem splitOnPred_sep (p : Char → Bool) (c : Char) (l : List Char) (h : p c = true) :
    splitOnPred p (c :: l) = [] :: splitOnPred p l := by
  simp [splitOnPred, h]

theorem splitOnPred_append_nosep (p : Char → Bool) (xs : List Char) (l : List Char)
    (a : List Char) (as : List (List Char)) (hxs : ∀ c ∈ xs, p c = false)
    (hl : splitOnPred p l = a :: as) :
    splitOnPred p (xs ++ l) = (xs ++ a) :: as := by
  induction xs with
  | nil => simpa using hl
  | cons x xs ih =>
    have hx : p x = false := hxs x (by simp)
    have ih2 := ih (fun c hc => hxs c (by simp [hc]))
    simp only [List.cons_append, splitOnPred, hx, Bool.false_eq_true, if_false,
      List.append_eq]
    rw [ih2]

theorem splitOnPred_nosep_all (p : Char → Bool) (xs : List Char)
    (h : ∀ c ∈ xs, p c = false) : splitOnPred p xs = [xs] := by
  have h2 := splitOnPred_append_nosep p xs [] [] [] h (by simp [splitOnPred])
  simpa using h2

/-- `"\n".join`, used to build the concrete diffs of the gate theorems. -/
def joinLines : List String → String
  | [] => ""
  | [l] => l
  | l :: l2 :: ls => l ++ "\n" ++ joinLines (l2 :: ls)

theorem pyLines_joinLines (ls : List String) (hne : ls ≠ [])
    (hall : ∀ s ∈ ls, ∀ c ∈ s.toList, (c == '\n') = false) :
    pyLines (joinLines ls) = ls := by
  induction ls with
  | nil => exact absurd rfl hne
  | cons l rest ih =>
    cases rest with
    | nil =>
      have h1 : ∀ c ∈ l.toList, (fun c => c == '\n') c = false := by
        intro c hc
        exact hall l (by simp) c hc
      have h2 := splitOnPred_nosep_all (fun c => c == '\n') l.toList h1
      unfold pyLines
      rw [show joinLines [l] = l from rfl, h2]
      rfl
    | cons l2 rest2 =>
      have hrec := ih (by simp) (fun s hs => hall s (by simp [hs]))
      obtain ⟨a, as, hsplit⟩ :
          ∃ a as, splitOnPred (fun c => c == '\n')
            (joinLines (l2 :: rest2)).toList = a :: as := by
        rcases hs : splitOnPred (fun c => c == '\n') (joinLines (l2 :: rest2)).toList
          with _ | ⟨a, as⟩
        · exact absurd hs (splitOnPred_ne_nil _ _)
        · exact ⟨a, as, rfl⟩
      have hx : (joinLines (l :: l2 :: rest2)).toList =
          l.toList ++ ('\n' :: (joinLines (l2 :: rest2)).toList) := by
        show ((l ++ "\n") ++ joinLines (l2 :: rest2)).toList = _
        rw [toList_append, toList_append]
        simp
      have hl2 : splitOnPred (fun c => c == '\n')
          ('\n' :: (joinLines (l2 :: rest2)).toList) =
          [] :: a :: as := by
        rw [splitOnPred_sep _ _ _ (by decide), hsplit]
      have hstep := splitOnPred_append_nosep (fun c => c == '\n') l.toList
        ('\n' :: (joinLines (l2 :: rest2)).toList) [] (a :: as)
        (fun c hc => hall l (by simp) c hc) hl2
      have hmain : pyLines (joinLines (l :: l2 :: rest2)) =
          l :: (splitOnPred (fun c => c == '\n')
            (joinLines (l2 :: rest2)).toList).map String.mk := by
        unfold pyLines
        rw [hx, hstep, hsplit]
        simp
      rw [hmain]
      have : (splitOnPred (fun c => c == '\n')
          (joinLines (l2 :: rest2)).toList).map String.mk = l2 :: rest2 := hrec
      rw [this]

theorem filter_replicate_pos {α : Type} (p : α → Bool) (n : Nat) (a : α) (h : p a = true) :
    (List.replicate n a).filter p = List.replicate n a := by
  induction n with
  | zero => rfl
  | succ k ih => simp [List.replicate_succ, List.filter_cons, h, ih]

theorem filter_replicate_neg {α : Type} (p : α → Bool) (n : Nat) (a : α) (h : p a = false) :
    (List.replicate n a).filter p = [] := by
  induction n with
  | zero => rfl
  | succ k ih => simp [List.replicate_succ, List.filter_cons, h, ih]

/-! ## Specification-side line counts and concrete diffs for the gate claims -/

/-- The removed-line count as the specification words it: lines with a leading
minus that are not `---` headers.  Stated only for comparison with
`removed_lines_count` (the count the code computes). -/
def spec_removed_count (diff : String) : Nat :=
  ((pyLines diff).filter (fun l =>
    ("-".toList.isPrefixOf l.toList) && !("---".toList.isPrefixOf l.toList))).length

/-- The added-line count as the specification words it: lines with a leading
plus that are not `+++` headers.  Stated only for comparison with
`added_lines_count` (the count the code computes). -/
def spec_added_count (diff : String) : Nat :=
  ((pyLines diff).filter (fun l =>
    ("+".toList.isPrefixOf l.toList) && !("+++".toList.isPrefixOf l.toList))).length

/-- The changed-line total as the specification words it. -/
def spec_changed_total (diff : String) : Nat :=
  spec_removed_count diff + spec_added_count diff

/-- A realistic single-file diff with 51 removed and 10 added content lines
(plus the usual `diff --git` / `index` / `---` / `+++` / `@@` headers). -/
def c5_counter_diff : String :=
  joinLines (["diff --git a/f.txt b/f.txt", "index 1111111..2222222 100644",
    "--- a/f.txt", "+++ b/f.txt", "@@ -1,51 +1,10 @@"] ++
    List.replicate 51 "-r" ++
    ["+a0", "+a1", "+a2", "+a3", "+a4", "+a5", "+a6", "+a7", "+a8", "+a9"])

/-- A diff whose removed- and added-line counts, as the code counts them, are
40 and 39. -/
def c5_diff40 : String :=
  joinLines (List.replicate 40 "-x" ++ (List.range 39).map (fun i => "+y" ++ natStr i))

/-- The ten distinct added lines of the 600-removed example diff. -/
def c5_added_tail : List String :=
  ["+a0", "+a1", "+a2", "+a3", "+a4", "+a5", "+a6", "+a7", "+a8", "+a9"]

/-- A diff whose removed- and added-line counts, as the code counts them, are
600 and 10. -/
def c5_diff600 : String := joinLines (List.replicate 600 "-r" ++ c5_added_tail)

/-- A realistic single-file diff removing 201 blank lines: 201 bare `-` lines
(plus headers).  The specification-side changed-line total is 201; the code
counts none of the bare `-` lines (the regex needs a character after the
minus) and counts the `+++` header as an added line. -/
def c6_counter_diff : String :=
  joinLines (["diff --git a/g.txt b/g.txt", "index 1111111..2222222 100644",
    "--- a/g.txt", "+++ b/g.txt", "@@ -1,201 +0,0 @@"] ++ List.replicate 201 "-")

theorem pyLines_c5_diff600 :
    pyLines c5_diff600 = List.replicate 600 "-r" ++ c5_added_tail := by
  apply pyLines_joinLines
  · apply List.ne_nil_of_length_pos
    rw [List.length_append, List.length_replicate]
    omega
  · intro s hs c hc
    rcases List.mem_append.mp hs with h | h
    · rw [List.eq_of_mem_replicate h] at hc
      have hx : ∀ c ∈ "-r".toList, (c == '\n') = false := by decide
      exact hx c hc
    · have hx : ∀ s ∈ c5_added_tail, ∀ c ∈ s.toList, (c == '\n') = false := by decide
      exact hx s h c hc

theorem removed_c5_diff600 : removed_lines_count c5_diff600 = 600 := by
  unfold removed_lines_count
  rw [pyLines_c5_diff600, List.filter_append,
    filter_replicate_pos isRemovedLine 600 "-r" (by decide)]
  rw [List.length_append, List.length_replicate]
  decide

theorem added_c5_diff600 : added_lines_count c5_diff600 = 10 := by
  unfold added_lines_count added_lines
  rw [pyLines_c5_diff600, List.filter_append,
    filter_replicate_neg isAddedLine 600 "-r" (by decide)]
  decide

/-! ## Reason-string lemmas -/

theorem strHasPrefix_of_toList_prefix (P r : String) (h : P.toList <+: r.toList) :
    strHasPrefix P r = true :=
  List.isPrefixOf_iff_prefix.mpr h

theorem head_append1 (q X : String) (c0 : Char) (h : ∃ t, q.toList = c0 :: t) :
    ∃ t, (q ++ X).toList = c0 :: t := by
  obtain ⟨qt, hq⟩ := h
  refine ⟨qt ++ X.toList, ?_⟩
  rw [toList_append, hq]
  rfl

theorem strHasPrefix_false_head (P r : String) (p0 c0 : Char)
    (hp : ∃ t, P.toList = p0 :: t) (hr : ∃ t, r.toList = c0 :: t)
    (hne : (p0 == c0) = false) : strHasPrefix P r = false := by
  obtain ⟨pt, hp⟩ := hp
  obtain ⟨rt, hr⟩ := hr
  exact strHasPrefix_ne_first hp hr hne

theorem cat_reason_has_prefix (a b : String) :
    strHasPrefix "catastrophic_deletion"
      ("catastrophic_deletion:" ++ a ++ "_removed_vs_" ++ b ++ "_added") = true := by
  apply strHasPrefix_of_toList_prefix
  have h1 : ("catastrophic_deletion:" ++ a ++ "_removed_vs_" ++ b ++ "_added").toList =
      "catastrophic_deletion".toList ++
        (':' :: (a.toList ++ ("_removed_vs_".toList ++ (b.toList ++ "_added".toList)))) := by
    simp only [toList_append, List.append_assoc]
    rfl
  rw [h1]
  exact List.prefix_append _ _

theorem size_reason_has_prefix (a b : String) :
    strHasPrefix "too_many_changed_lines"
      ("too_many_changed_lines:" ++ a ++ "_limit_" ++ b) = true := by
  apply strHasPrefix_of_toList_prefix
  have h1 : ("too_many_changed_lines:" ++ a ++ "_limit_" ++ b).toList =
      "too_many_changed_lines".toList ++
        (':' :: (a.toList ++ ("_limit_".toList ++ b.toList))) := by
    simp only [toList_append, List.append_assoc]
    rfl
  rw [h1]
  exact List.prefix_append _ _

theorem size_not_prefix_files (X : String) :
    strHasPrefix "too_many_changed_lines" ("too_many_files:" ++ X) = false := by
  unfold strHasPrefix
  rw [toList_append]
  rfl

/-- Head characters of the composite reason strings (for first-character
mismatch arguments). -/
theorem head_files_reason (a : String) :
    ∃ t, ("too_many_files:" ++ a).toList = 't' :: t :=
  head_append1 _ _ _ ⟨_, rfl⟩

theorem head_size_reason (a b : String) :
    ∃ t, ("too_many_changed_lines:" ++ a ++ "_limit_" ++ b).toList = 't' :: t :=
  head_append1 _ _ _ (head_append1 _ _ _ (head_append1 _ _ _ ⟨_, rfl⟩))

theorem head_cat_reason (a b : String) :
    ∃ t, ("catastrophic_deletion:" ++ a ++ "_removed_vs_" ++ b ++ "_added").toList =
      'c' :: t :=
  head_append1 _ _ _ (head_append1 _ _ _ (head_append1 _ _ _ (head_append1 _ _ _ ⟨_, rfl⟩)))

theorem head_rep_reason (a : String) :
    ∃ t, ("repetitive_code:max_repeat=" ++ a).toList = 'r' :: t :=
  head_append1 _ _ _ ⟨_, rfl⟩

theorem head_syntax_reason (a : String) :
    ∃ t, ("syntax_compile_failed:" ++ a).toList = 's' :: t :=
  head_append1 _ _ _ ⟨_, rfl⟩

/-- The catastrophic-deletion fail reason is present exactly under the code
condition over the code counts. -/
theorem cat_mem_of (cfg : GateConfig) (diff : String) (cg : CompileGateResult)
    (h1 : removed_lines_count diff > 50) (h2 : added_lines_count diff > 0)
    (h3 : removed_lines_count diff > 5 * added_lines_count diff) :
    ("catastrophic_deletion:" ++ natStr (removed_lines_count diff) ++ "_removed_vs_" ++
      natStr (added_lines_count diff) ++ "_added") ∈ fail_reasons_of cfg diff cg := by
  unfold fail_reasons_of
  apply List.mem_append_left
  apply List.mem_append_left
  apply List.mem_append_left
  apply List.mem_append_right
  exact mem_if_singleton_of ⟨h1, h2, h3⟩

theorem cat_prefix_mem_iff (cfg : GateConfig) (diff : String) (cg : CompileGateResult) :
    (∃ r ∈ fail_reasons_of cfg diff cg, strHasPrefix "catastrophic_deletion" r = true) ↔
      (removed_lines_count diff > 50 ∧ added_lines_count diff > 0 ∧
        removed_lines_count diff > 5 * added_lines_count diff) := by
  constructor
  · rintro ⟨r, hr, hpre⟩
    by_contra hcond
    unfold fail_reasons_of at hr
    rcases List.mem_append.mp hr with hr6 | hr7
    · rcases List.mem_append.mp hr6 with hr5 | hr6
      · rcases List.mem_append.mp hr5 with hr4 | hr5
        · rcases List.mem_append.mp hr4 with hr3 | hr4
          · rcases List.mem_append.mp hr3 with hr2 | hr3
            · rcases List.mem_append.mp hr2 with hr1 | hr2
              · rw [mem_if_singleton hr1] at hpre
                exact absurd hpre (by decide)
              · rw [mem_if_singleton hr2] at hpre
                rw [strHasPrefix_false_head _ _ 'c' 't' ⟨_, rfl⟩
                  (head_files_reason _) (by decide)] at hpre
                cases hpre
            · rw [mem_if_singleton hr3] at hpre
              rw [strHasPrefix_false_head _ _ 'c' 't' ⟨_, rfl⟩
                (head_size_reason _ _) (by decide)] at hpre
              cases hpre
          · rw [if_neg hcond] at hr4
            cases hr4
        · rw [mem_if_singleton hr5] at hpre
          rw [strHasPrefix_false_head _ _ 'c' 'r' ⟨_, rfl⟩
            (head_rep_reason _) (by decide)] at hpre
          cases hpre
      · rw [mem_if_singleton hr6] at hpre
        exact absurd hpre (by decide)
    · rw [mem_if_singleton hr7] at hpre
      rw [strHasPrefix_false_head _ _ 'c' 's' ⟨_, rfl⟩
        (head_syntax_reason _) (by decide)] at hpre
      cases hpre
  · rintro ⟨h1, h2, h3⟩
    exact ⟨_, cat_mem_of cfg diff cg h1 h2 h3, cat_reason_has_prefix _ _⟩

theorem size_mem_of (cfg : GateConfig) (diff : String) (cg : CompileGateResult)
    (hmax : cfg.max_changed_lines > 0)
    (hot : changed_lines_total diff > cfg.max_changed_lines) :
    ("too_many_changed_lines:" ++ natStr (changed_lines_total diff) ++ "_limit_" ++
      natStr cfg.max_changed_lines) ∈ fail_reasons_of cfg diff cg := by
  unfold fail_reasons_of
  apply List.mem_append_left
  apply List.mem_append_left
  apply List.mem_append_left
  apply List.mem_append_left
  apply List.mem_append_right
  exact mem_if_singleton_of ⟨hmax, hot⟩

theorem size_not_mem (cfg : GateConfig) (diff : String) (cg : CompileGateResult)
    (hmax : cfg.max_changed_lines = 0) :
    ∀ r ∈ fail_reasons_of cfg diff cg,
      strHasPrefix "too_many_changed_lines" r = false := by
  intro r hr
  unfold fail_reasons_of at hr
  rcases List.mem_append.mp hr with hr6 | hr7
  · rcases List.mem_append.mp hr6 with hr5 | hr6
    · rcases List.mem_append.mp hr5 with hr4 | hr5
      · rcases List.mem_append.mp hr4 with hr3 | hr4
        · rcases List.mem_append.mp hr3 with hr2 | hr3
          · rcases List.mem_append.mp hr2 with hr1 | hr2
            · rw [mem_if_singleton hr1]
              decide
            · rw [mem_if_singleton hr2]
              exact size_not_prefix_files _
          · have : ¬ (cfg.max_changed_lines > 0 ∧
                changed_lines_total diff > cfg.max_changed_lines) := by
              rw [hmax]
              rintro ⟨h0, _⟩
              exact Nat.lt_irrefl 0 h0
            rw [if_neg this] at hr3
            cases hr3
        · rw [mem_if_singleton hr4]
          exact strHasPrefix_false_head _ _ 't' 'c' ⟨_, rfl⟩ (head_cat_reason _ _) (by decide)
      · rw [mem_if_singleton hr5]
        exact strHasPrefix_false_head _ _ 't' 'r' ⟨_, rfl⟩ (head_rep_reason _) (by decide)
    · rw [mem_if_singleton hr6]
      decide
  · rw [mem_if_singleton hr7]
    exact strHasPrefix_false_head _ _ 't' 's' ⟨_, rfl⟩ (head_syntax_reason _) (by decide)

set_option maxRecDepth 40000

/-- C5 counterexample: a realistic single-file diff whose non-header counts are
51 removed and 10 added.  The condition of the claim (over non-header lines)
holds, yet the gate emits no catastrophic-deletion reason and accepts the
patch, because the code regex also counts the `+++ b/f.txt` header as an added
line (11 added), and 51 is not greater than 5 times 11. -/
theorem C5_catastrophic_deletion_counterexample :
    spec_removed_count c5_counter_diff = 51 ∧
    spec_added_count c5_counter_diff = 10 ∧
    (51 > 50 ∧ 10 > 0 ∧ 51 > 5 * 10) ∧
    added_lines_count c5_counter_diff = 11 ∧
    (∀ r ∈ (validate_patch_quality defaultGateConfig c5_counter_diff
        zeroCompileGate).fail_reasons,
      strHasPrefix "catastrophic_deletion" r = false) ∧
    (validate_patch_quality defaultGateConfig c5_counter_diff zeroCompileGate).fail_reasons
      = [] ∧
    extract_patch defaultGateConfig c5_counter_diff zeroCompileGate = c5_counter_diff ∧
    c5_counter_diff ≠ "" := by
  decide

/-- C5 amended: the catastrophic-deletion reason is emitted exactly when
`removed > 50`, `added > 0` and `removed > 5 * added` hold for the counts the
code computes (added lines are lines starting with `+` except those starting
with four plus signs, so `+++` headers count; removed lines are lines starting
with `-` plus at least one further character, except `---` lines).  A diff
counted as 40 removed and 39 added passes the gate; one counted as 600 removed
and 10 added fails with `catastrophic_deletion:600_removed_vs_10_added` and
the extracted prediction is empty regardless of any test outcome or compile
result. -/
theorem C5_catastrophic_deletion_amended :
    (∀ (cfg : GateConfig) (diff : String) (cg : CompileGateResult),
      ((∃ r ∈ (validate_patch_quality cfg diff cg).fail_reasons,
          strHasPrefix "catastrophic_deletion" r = true) ↔
        (removed_lines_count diff > 50 ∧ added_lines_count diff > 0 ∧
          removed_lines_count diff > 5 * added_lines_count diff))) ∧
    (removed_lines_count c5_diff40 = 40 ∧ added_lines_count c5_diff40 = 39 ∧
      (validate_patch_quality defaultGateConfig c5_diff40 zeroCompileGate).fail_reasons
        = []) ∧
    (removed_lines_count c5_diff600 = 600 ∧ added_lines_count c5_diff600 = 10 ∧
      "catastrophic_deletion:600_removed_vs_10_added" ∈
        (validate_patch_quality defaultGateConfig c5_diff600 zeroCompileGate).fail_reasons ∧
      ∀ cg : CompileGateResult,
        extract_patch defaultGateConfig c5_diff600 cg = "") := by
  refine ⟨?_, by decide, ?_⟩
  · intro cfg diff cg
    rw [validate_fail_reasons_eq]
    exact cat_prefix_mem_iff cfg diff cg
  · refine ⟨removed_c5_diff600, added_c5_diff600, ?_, ?_⟩
    · rw [validate_fail_reasons_eq]
      have hm := cat_mem_of defaultGateConfig c5_diff600 zeroCompileGate
        (by rw [removed_c5_diff600]; omega)
        (by rw [added_c5_diff600]; omega)
        (by rw [removed_c5_diff600, added_c5_diff600]; omega)
      rw [removed_c5_diff600, added_c5_diff600] at hm
      have hstr : ("catastrophic_deletion:" ++ natStr 600 ++ "_removed_vs_" ++
          natStr 10 ++ "_added") = "catastrophic_deletion:600_removed_vs_10_added" := by
        decide
      rw [hstr] at hm
      exact hm
    · intro cg
      apply extract_patch_of_fail
      intro h0
      have hm := cat_mem_of defaultGateConfig c5_diff600 cg
        (by rw [removed_c5_diff600]; omega)
        (by rw [added_c5_diff600]; omega)
        (by rw [removed_c5_diff600, added_c5_diff600]; omega)
      rw [h0] at hm
      cases hm

/-- Witness diff for C5: 51 removed lines against one added line. -/
def c5_wdiff : String := joinLines (List.replicate 51 "-r" ++ ["+zz"])

/-- Witness for C5: the amended characterization applied to a diff counted as
51 removed and 1 added, which does trigger the catastrophic-deletion reason. -/
theorem C5_catastrophic_deletion_amended_witness :
    ∃ r ∈ (validate_patch_quality defaultGateConfig c5_wdiff zeroCompileGate).fail_reasons,
      strHasPrefix "catastrophic_deletion" r = true :=
  (C5_catastrophic_deletion_amended.1 defaultGateConfig c5_wdiff zeroCompileGate).mpr
    (by decide)

/-- C6 counterexample: a realistic diff removing 201 blank lines.  Counting
non-header plus/minus lines as the claim words it, the changed-line total is
201, above the default limit of 200 — but the code counts bare `-` lines as
zero removed lines (its regex demands a character after the minus), so the
total it compares is 1 and the diff passes the gate. -/
theorem C6_changed_lines_counterexample :
    spec_changed_total c6_counter_diff = 201 ∧
    defaultGateConfig.max_changed_lines = 200 ∧
    changed_lines_total c6_counter_diff = 1 ∧
    (∀ r ∈ (validate_patch_quality defaultGateConfig c6_counter_diff
        zeroCompileGate).fail_reasons,
      strHasPrefix "too_many_changed_lines" r = false) ∧
    (validate_patch_quality defaultGateConfig c6_counter_diff zeroCompileGate).valid
      = true ∧
    extract_patch defaultGateConfig c6_counter_diff zeroCompileGate = c6_counter_diff ∧
    c6_counter_diff ≠ "" := by
  decide

/-- C6 amended: with `max_changed_lines = 0` the size check is disabled (no
fail reason ever starts with `too_many_changed_lines`); otherwise any diff
whose `changed_lines_total` — as the code counts it (added lines are lines
starting with `+` except four-plus lines, removed lines are lines starting
with `-` plus a further character, except `---` lines) — strictly exceeds the
limit receives the size fail reason and is rejected with an empty extracted
patch. -/
theorem C6_changed_lines_limit :
    ∀ (cfg : GateConfig) (diff : String) (cg : CompileGateResult),
    (cfg.max_changed_lines = 0 →
      ∀ r ∈ (validate_patch_quality cfg diff cg).fail_reasons,
        strHasPrefix "too_many_changed_lines" r = false) ∧
    (cfg.max_changed_lines > 0 → changed_lines_total diff > cfg.max_changed_lines →
      (∃ r ∈ (validate_patch_quality cfg diff cg).fail_reasons,
        strHasPrefix "too_many_changed_lines" r = true) ∧
      (validate_patch_quality cfg diff cg).valid = false ∧
      (validate_patch_quality cfg diff cg).severity = "fail" ∧
      extract_patch cfg diff cg = "") := by
  intro cfg diff cg
  constructor
  · intro hmax r hr
    rw [validate_fail_reasons_eq] at hr
    exact size_not_mem cfg diff cg hmax r hr
  · intro hmax hot
    have hm := size_mem_of cfg diff cg hmax hot
    have hne : fail_reasons_of cfg diff cg ≠ [] := by
      intro h0
      rw [h0] at hm
      cases hm
    have hm2 : ("too_many_changed_lines:" ++ natStr (changed_lines_total diff) ++
        "_limit_" ++ natStr cfg.max_changed_lines) ∈
        (validate_patch_quality cfg diff cg).fail_reasons := by
      rw [validate_fail_reasons_eq]
      exact hm
    refine ⟨⟨_, hm2, size_reason_has_prefix _ _⟩, ?_, ?_,
      extract_patch_of_fail cfg diff cg hne⟩
    · rw [validate_eq_fail cfg diff cg hne]
    · rw [validate_eq_fail cfg diff cg hne]

/-- Witness diff for C6: 201 removed lines the code counts. -/
def c6_wdiff : String := joinLines (List.replicate 201 "-a")

/-- Witness for C6: a diff counted as 201 changed lines against the default
limit of 200 is rejected with an empty extracted patch. -/
theorem C6_changed_lines_limit_witness :
    extract_patch defaultGateConfig c6_wdiff zeroCompileGate = "" :=
  ((C6_changed_lines_limit defaultGateConfig c6_wdiff zeroCompileGate).2
    (by decide) (by decide)).2.2.2

/-! ## C4: pytest subset fallback and clamping -/

/-- C4: on a nonempty test list, when neither counter regex matched, return
code 0 yields all passed and a nonzero return code yields all failed; parsed
counters are clamped to the number of requested tests; a hard timeout yields
zero passed, everything failed, return code 124. -/
theorem C4_pytest_subset_fallback :
    ∀ (tests : List String) (inv : PytestInvocation), tests ≠ [] →
    (inv.timed_out = true →
      run_pytest_subset tests inv = ⟨0, tests.length, 124⟩) ∧
    (inv.timed_out = false → inv.passed_match = none → inv.failed_match = none →
      ((inv.returncode = 0 →
        run_pytest_subset tests inv = ⟨tests.length, 0, 0⟩) ∧
       (inv.returncode ≠ 0 →
        (run_pytest_subset tests inv).passed = 0 ∧
        (run_pytest_subset tests inv).failed = tests.length))) ∧
    ((run_pytest_subset tests inv).passed ≤ tests.length ∧
     (run_pytest_subset tests inv).failed ≤ tests.length) := by
  intro tests inv hne
  have hlen : 1 ≤ tests.length := by
    rcases tests with _ | ⟨t, ts⟩
    · exact absurd rfl hne
    · simp
  refine ⟨?_, ?_, ?_⟩
  · intro ht
    simp [run_pytest_subset, ht]
  · intro ht hp hf
    constructor
    · intro hrc
      simp [run_pytest_subset, ht, hp, hf, hrc, parse_pytest_counts]
    · intro hrc
      simp [run_pytest_subset, ht, hp, hf, hrc, parse_pytest_counts]
  · by_cases ht : inv.timed_out
    · simp [run_pytest_subset, ht]
    · simp only [run_pytest_subset, ht, Bool.false_eq_true, if_false]
      exact ⟨Nat.min_le_right _ _, Nat.min_le_right _ _⟩

/-- Witness for C4: one requested test, no counters in the output, return code
0: the runner reports it as passed. -/
theorem C4_pytest_subset_fallback_witness :
    run_pytest_subset ["t"] ⟨false, 0, none, none⟩ = ⟨1, 0, 0⟩ :=
  ((C4_pytest_subset_fallback ["t"] ⟨false, 0, none, none⟩ (by decide)).2.1
    rfl rfl rfl).1 rfl

/-! ## C7: candidate evaluation with no target tests -/

/-- C7 counterexample: with both test lists empty and test checks required,
the returned metrics are not all null — `f2p_total` is the integer 0 and
`f2p_all_passed` is the boolean false. -/
theorem C7_empty_tests_counterexample :
    (evaluate_candidate [] [] 10 true (fun _ => ⟨0, 0, 0⟩)).f2p_total = some 0 ∧
    (evaluate_candidate [] [] 10 true (fun _ => ⟨0, 0, 0⟩)).f2p_total ≠ none ∧
    (evaluate_candidate [] [] 10 true (fun _ => ⟨0, 0, 0⟩)).f2p_all_passed
      = some false := by
  decide

/-- C7 amended: with both test lists empty and test checks required, no pytest
run happens (the result does not depend on the runner at all) and the metrics
are the skeleton: `f2p_total = 0`, `f2p_all_passed = false`, every other field
— including `clean_resolution`, `f2p_pass_rate` and `p2p_smoke_failures` — is
null; in particular no false positive is synthesized. -/
theorem C7_empty_tests_all_null :
    ∀ (n : Nat) (runner : List String → PytestResult),
      evaluate_candidate [] [] n true runner =
        ⟨some 0, none, none, none, some false, none, none, none⟩ := by
  intro n runner
  simp [evaluate_candidate]

set_option maxRecDepth 8000

/-! ## C2: scoring and monotone selection -/

theorem string_ne_empty_iff_length_pos (s : String) : s ≠ "" ↔ 0 < s.length := by
  constructor
  · intro h
    have hd : s.data ≠ [] := by
      intro hd
      apply h
      cases s with
      | mk d =>
        cases hd
        rfl
    have hp := List.length_pos.mpr hd
    exact hp
  · intro h hs
    rw [hs] at h
    simp at h

theorem score_candidate_eq_spec (c : Candidate) : score_candidate c = spec_score c := by
  unfold score_candidate spec_score loop_penalty_of
  by_cases h : c.prediction = ""
  · have hz : c.prediction.length = 0 := by
      rw [h]
      rfl
    simp [h, hz]
  · have hp : 0 < c.prediction.length := (string_ne_empty_iff_length_pos c.prediction).mp h
    simp [h, hp]

theorem select_fold_ge (cands : List Candidate) :
    ∀ (acc b : Candidate), cands.foldl select_step (some acc) = some b →
      score_candidate acc ≤ score_candidate b ∧
      ∀ x ∈ cands, ¬ score_candidate b < score_candidate x := by
  induction cands with
  | nil =>
    intro acc b h
    simp only [List.foldl_nil, Option.some.injEq] at h
    subst h
    exact ⟨le_refl _, by simp⟩
  | cons c cs ih =>
    intro acc b h
    by_cases hlt : score_candidate acc < score_candidate c
    · have h2 : cs.foldl select_step (some c) = some b := by
        simpa [select_step, hlt] using h
      obtain ⟨hcb, hall⟩ := ih c b h2
      refine ⟨le_of_lt (lt_of_lt_of_le hlt hcb), ?_⟩
      intro x hx
      rcases List.mem_cons.mp hx with rfl | hx
      · exact not_lt.mpr hcb
      · exact hall x hx
    · have h2 : cs.foldl select_step (some acc) = some b := by
        simpa [select_step, hlt] using h
      obtain ⟨hab, hall⟩ := ih acc b h2
      refine ⟨hab, ?_⟩
      intro x hx
      rcases List.mem_cons.mp hx with rfl | hx
      · intro hbx
        exact hlt (lt_of_le_of_lt hab hbx)
      · exact hall x hx

theorem select_best_not_beaten (cands : List Candidate) (b : Candidate)
    (h : select_best cands = some b) :
    ∀ x ∈ cands, ¬ score_candidate b < score_candidate x := by
  rcases cands with _ | ⟨c, cs⟩
  · intro x hx
    cases hx
  · have h2 : cs.foldl select_step (some c) = some b := by
      simpa [select_best, select_step] using h
    obtain ⟨hcb, hall⟩ := select_fold_ge cs c b h2
    intro x hx
    rcases List.mem_cons.mp hx with rfl | hx
    · exact not_lt.mpr hcb
    · exact hall x hx

/-- C2: a candidate score is exactly the lexicographic tuple the specification
describes (non-empty flag, pass rate with nulls as 0, minus smoke failures
with nulls as 0, minus the loop-aborted flag, minus the patch size), and
best-candidate selection is monotone in this order: a candidate whose score is
strictly dominated by another produced candidate is never selected. -/
theorem C2_score_and_selection_monotone :
    (∀ c : Candidate, score_candidate c = spec_score c) ∧
    (∀ (cands : List Candidate) (A B : Candidate), A ∈ cands → B ∈ cands →
      score_candidate B < score_candidate A → select_best cands ≠ some B) := by
  refine ⟨score_candidate_eq_spec, ?_⟩
  intro cands A B hA _ hlt hsel
  exact select_best_not_beaten cands B hsel A hA hlt

/-- Witness candidates for C2: a non-empty submitted patch against an empty
one. -/
def c2_wA : Candidate := ⟨1, "x", "Submitted", "", none, none, none, true, "ok", "info"⟩

/-- Second witness candidate for C2. -/
def c2_wB : Candidate := ⟨2, "", "Submitted", "", none, none, none, false, "empty_diff", "fail"⟩

/-- Witness for C2: with both candidates produced, the dominated empty-patch
candidate is not selected. -/
theorem C2_score_and_selection_monotone_witness :
    select_best [c2_wA, c2_wB] ≠ some c2_wB :=
  C2_score_and_selection_monotone.2 [c2_wA, c2_wB] c2_wA c2_wB
    (by simp) (by simp) (by decide)

/-! ## Driver lemmas and the loop-policy claims -/

/-- The (role, content) pair a message event passes to the wrapped
`add_message` when nothing is injected. -/
def msgRoleContent : Msg → String × String
  | Msg.assistant c _ => ("assistant", c)
  | Msg.user c _ => ("user", c)
  | Msg.other role c => (role, c)

theorem step_assistant_loop_abort (st : DriverState) (cmds : List String) :
    (step_assistant st cmds).loop_abort_reason = st.loop_abort_reason := by
  cases cmds <;> simp [step_assistant]

theorem runMsgs_off (cfg : DriverConfig) (hoff : cfg.loop_policy = LoopPolicy.off) :
    ∀ (msgs : List Msg) (st : DriverState),
      (runMsgs cfg st msgs).2.1 = msgs.map msgRoleContent ∧
      (runMsgs cfg st msgs).2.2 = false ∧
      (runMsgs cfg st msgs).1.loop_abort_reason = st.loop_abort_reason := by
  intro msgs
  induction msgs with
  | nil => intro st; simp [runMsgs]
  | cons m rest ih =>
    intro st
    cases m with
    | assistant c cmds =>
      obtain ⟨h1, h2, h3⟩ := ih (step_assistant st cmds)
      simp only [runMsgs]
      exact ⟨by simp [msgRoleContent, h1], by simp [h2],
        by simp [h3, step_assistant_loop_abort]⟩
    | user c sig =>
      obtain ⟨h1, h2, h3⟩ := ih st
      simp only [runMsgs, hoff, if_pos]
      exact ⟨by simp [msgRoleContent, h1], by simp [h2], by simp [h3]⟩
    | other role c =>
      obtain ⟨h1, h2, h3⟩ := ih st
      simp only [runMsgs]
      exact ⟨by simp [msgRoleContent, h1], by simp [h2], by simp [h3]⟩

/-- C8: with loop policy `off`, no observation is modified (the driver forwards
every message unchanged), no strict abort is ever raised, the run result's
`loop_abort_reason` stays the empty string, and so does the candidate field
recorded from it. -/
theorem C8_loop_policy_off_no_abort :
    ∀ (cfg : DriverConfig) (sig0 : String) (msgs : List Msg)
      (agent_status agent_message : String),
      cfg.loop_policy = LoopPolicy.off →
      (run_agent_with_controls cfg sig0 msgs agent_status agent_message).loop_abort_reason
        = "" ∧
      (run_agent_with_controls cfg sig0 msgs agent_status agent_message).aborted = false ∧
      (run_agent_with_controls cfg sig0 msgs agent_status agent_message).status
        = agent_status ∧
      (run_agent_with_controls cfg sig0 msgs agent_status agent_message).emitted
        = msgs.map msgRoleContent ∧
      ∀ (att : Nat) (patch : String) (gate : QualityDecision) (m : TestMetrics),
        (mkCandidate att patch
          (run_agent_with_controls cfg sig0 msgs agent_status agent_message) gate
          m).loop_abort_reason = "" := by
  intro cfg sig0 msgs agent_status agent_message hoff
  obtain ⟨h1, h2, h3⟩ := runMsgs_off cfg hoff msgs (initDriverState sig0)
  have hinit : (initDriverState sig0).loop_abort_reason = "" := rfl
  rw [hinit] at h3
  unfold run_agent_with_controls
  simp [h1, h2, h3, mkCandidate]

/-- Witness for C8: a small trace under policy `off` keeps the abort reason
empty and forwards the observation unchanged. -/
theorem C8_loop_policy_off_no_abort_witness :
    (run_agent_with_controls (defaultDriverConfig LoopPolicy.off) "EMPTY"
      [Msg.assistant "" ["grep a b"], Msg.user "<returncode>1</returncode>" "EMPTY"]
      "Submitted" "done").loop_abort_reason = "" ∧
    (run_agent_with_controls (defaultDriverConfig LoopPolicy.off) "EMPTY"
      [Msg.assistant "" ["grep a b"], Msg.user "<returncode>1</returncode>" "EMPTY"]
      "Submitted" "done").emitted =
      [("assistant", ""), ("user", "<returncode>1</returncode>")] :=
  ⟨(C8_loop_policy_off_no_abort (defaultDriverConfig LoopPolicy.off) "EMPTY"
      [Msg.assistant "" ["grep a b"], Msg.user "<returncode>1</returncode>" "EMPTY"]
      "Submitted" "done" rfl).1,
    by
      rw [(C8_loop_policy_off_no_abort (defaultDriverConfig LoopPolicy.off) "EMPTY"
        [Msg.assistant "" ["grep a b"], Msg.user "<returncode>1</returncode>" "EMPTY"]
        "Submitted" "done" rfl).2.2.2.1]
      decide⟩

theorem step_user_state_loop_abort (cfg : DriverConfig) (st : DriverState)
    (c sig : String) :
    (step_user cfg st c sig).state.loop_abort_reason =
      (if (step_user cfg st c sig).abort_now ≠ "" then (step_user cfg st c sig).abort_now
        else st.loop_abort_reason) := rfl

theorem step_user_abort_nonempty (cfg : DriverConfig) (st : DriverState)
    (c sig : String) (h : st.loop_abort_reason ≠ "") :
    (step_user cfg st c sig).state.loop_abort_reason ≠ "" := by
  rw [step_user_state_loop_abort]
  split
  · assumption
  · exact h

theorem runMsgs_abort_persists (cfg : DriverConfig) :
    ∀ (msgs : List Msg) (st : DriverState), st.loop_abort_reason ≠ "" →
      (runMsgs cfg st msgs).1.loop_abort_reason ≠ "" := by
  intro msgs
  induction msgs with
  | nil => intro st h; simpa [runMsgs] using h
  | cons m rest ih =>
    intro st h
    cases m with
    | assistant c cmds =>
      simp only [runMsgs]
      exact ih (step_assistant st cmds) (by rw [step_assistant_loop_abort]; exact h)
    | user c sig =>
      simp only [runMsgs]
      by_cases hoff : cfg.loop_policy = LoopPolicy.off
      · rw [if_pos hoff]
        exact ih st h
      · rw [if_neg hoff]
        have hso := step_user_abort_nonempty cfg st c sig h
        by_cases hstrict : cfg.loop_policy = LoopPolicy.strict ∧
            (step_user cfg st c sig).state.loop_abort_reason ≠ ""
        · rw [if_pos hstrict]
          exact hso
        · rw [if_neg hstrict]
          exact ih (step_user cfg st c sig).state hso
    | other role c =>
      simp only [runMsgs]
      exact ih st h

theorem runMsgs_warn_not_aborted (cfg : DriverConfig)
    (hw : cfg.loop_policy = LoopPolicy.warn) :
    ∀ (msgs : List Msg) (st : DriverState), (runMsgs cfg st msgs).2.2 = false := by
  intro msgs
  induction msgs with
  | nil => intro st; simp [runMsgs]
  | cons m rest ih =>
    intro st
    cases m with
    | assistant c cmds =>
      simp only [runMsgs]
      exact ih (step_assistant st cmds)
    | user c sig =>
      have hoff : ¬ cfg.loop_policy = LoopPolicy.off := by
        rw [hw]
        decide
      have hstrict : ¬ (cfg.loop_policy = LoopPolicy.strict ∧
          (step_user cfg st c sig).state.loop_abort_reason ≠ "") := by
        rintro ⟨h1, _⟩
        rw [hw] at h1
        cases h1
      simp only [runMsgs, if_neg hoff, if_neg hstrict]
      exact ih (step_user cfg st c sig).state
    | other role c =>
      simp only [runMsgs]
      exact ih st

theorem runMsgs_append_warn (cfg : DriverConfig)
    (hw : cfg.loop_policy = LoopPolicy.warn) :
    ∀ (l1 l2 : List Msg) (st : DriverState),
      (runMsgs cfg st (l1 ++ l2)).1 = (runMsgs cfg (runMsgs cfg st l1).1 l2).1 := by
  intro l1
  induction l1 with
  | nil => intro l2 st; simp [runMsgs]
  | cons m rest ih =>
    intro l2 st
    cases m with
    | assistant c cmds =>
      simp only [List.cons_append, runMsgs]
      exact ih l2 (step_assistant st cmds)
    | user c sig =>
      have hoff : ¬ cfg.loop_policy = LoopPolicy.off := by
        rw [hw]
        decide
      have hstrict : ∀ st2 : DriverState, ¬ (cfg.loop_policy = LoopPolicy.strict ∧
          st2.loop_abort_reason ≠ "") := by
        rintro st2 ⟨h1, _⟩
        rw [hw] at h1
        cases h1
      simp only [List.cons_append, runMsgs, if_neg hoff, if_neg (hstrict _)]
      exact ih l2 (step_user cfg st c sig).state
    | other role c =>
      simp only [List.cons_append, runMsgs]
      exact ih l2 st

/-- C10: with loop policy `warn`, the driver never raises the loop abort (the
whole message stream is processed and the agent status is preserved); once any
observation step computes a nonempty abort reason, the run result carries a
nonempty `loop_abort_reason`; that field is copied verbatim onto the
candidate; and the scoring loop penalty of any candidate with a nonempty abort
reason is 1 — exactly the penalty a strict abort would produce. -/
theorem C10_loop_policy_warn_records_and_penalizes :
    ∀ (cfg : DriverConfig) (sig0 : String) (msgs : List Msg)
      (agent_status agent_message : String),
      cfg.loop_policy = LoopPolicy.warn →
      ((run_agent_with_controls cfg sig0 msgs agent_status agent_message).aborted
          = false ∧
        (run_agent_with_controls cfg sig0 msgs agent_status agent_message).status
          = agent_status) ∧
      (∀ (pre post : List Msg) (c sig : String),
        msgs = pre ++ Msg.user c sig :: post →
        (step_user cfg (runMsgs cfg (initDriverState sig0) pre).1 c sig).abort_now ≠ "" →
        (run_agent_with_controls cfg sig0 msgs agent_status
          agent_message).loop_abort_reason ≠ "") ∧
      (∀ (att : Nat) (patch : String) (gate : QualityDecision) (m : TestMetrics),
        (mkCandidate att patch
            (run_agent_with_controls cfg sig0 msgs agent_status agent_message) gate
            m).loop_abort_reason =
          (run_agent_with_controls cfg sig0 msgs agent_status
            agent_message).loop_abort_reason) ∧
      (∀ c : Candidate, c.loop_abort_reason ≠ "" → loop_penalty_of c = 1) := by
  intro cfg sig0 msgs agent_status agent_message hw
  have hnab := runMsgs_warn_not_aborted cfg hw msgs (initDriverState sig0)
  refine ⟨?_, ?_, ?_, ?_⟩
  · unfold run_agent_with_controls
    simp [hnab]
  · intro pre post c sig hmsgs habort
    subst hmsgs
    have hfin : (runMsgs cfg (initDriverState sig0)
        (pre ++ Msg.user c sig :: post)).1.loop_abort_reason ≠ "" := by
      rw [runMsgs_append_warn cfg hw pre (Msg.user c sig :: post) (initDriverState sig0)]
      have hoff : ¬ cfg.loop_policy = LoopPolicy.off := by
        rw [hw]
        decide
      have hstrict : ¬ (cfg.loop_policy = LoopPolicy.strict ∧
          (step_user cfg (runMsgs cfg (initDriverState sig0) pre).1 c
            sig).state.loop_abort_reason ≠ "") := by
        rintro ⟨h1, _⟩
        rw [hw] at h1
        cases h1
      simp only [runMsgs, if_neg hoff, if_neg hstrict]
      apply runMsgs_abort_persists
      rw [step_user_state_loop_abort]
      rw [if_pos habort]
      exact habort
    unfold run_agent_with_controls
    simp [runMsgs_warn_not_aborted cfg hw]
    exact hfin
  · intro att patch gate m
    rfl
  · intro c hc
    simp [loop_penalty_of, hc]

/-- Witness trace for C10: two identical failing `sed -i` edits under policy
`warn`. -/
def c10_wmsgs : List Msg :=
  [Msg.assistant "" ["sed -i s/a/b/ f.py"], Msg.user "<returncode>1</returncode>" "EMPTY",
    Msg.assistant "" ["sed -i s/a/b/ f.py"], Msg.user "<returncode>1</returncode>" "EMPTY"]

/-- Witness for C10: the warn-mode run is not aborted, yet the sed-fail streak
reason is recorded. -/
theorem C10_loop_policy_warn_records_and_penalizes_witness :
    (run_agent_with_controls (defaultDriverConfig LoopPolicy.warn) "EMPTY" c10_wmsgs
      "Submitted" "m").aborted = false ∧
    (run_agent_with_controls (defaultDriverConfig LoopPolicy.warn) "EMPTY" c10_wmsgs
      "Submitted" "m").loop_abort_reason ≠ "" :=
  ⟨(C10_loop_policy_warn_records_and_penalizes (defaultDriverConfig LoopPolicy.warn)
      "EMPTY" c10_wmsgs "Submitted" "m" rfl).1.1,
    (C10_loop_policy_warn_records_and_penalizes (defaultDriverConfig LoopPolicy.warn)
      "EMPTY" c10_wmsgs "Submitted" "m" rfl).2.1
      [Msg.assistant "" ["sed -i s/a/b/ f.py"],
        Msg.user "<returncode>1</returncode>" "EMPTY",
        Msg.assistant "" ["sed -i s/a/b/ f.py"]]
      [] "<returncode>1</returncode>" "EMPTY" rfl (by decide)⟩

/-! ## C3: strict search-only streak -/

/-- The default driver configuration under the strict loop policy. -/
def cfgStrict : DriverConfig := defaultDriverConfig LoopPolicy.strict

/-- Eight consecutive observed search turns in which the sixth to eighth issue
the same failing `grep` (return code 1): a concrete trace for C3. -/
def c3_ce_msgs : List Msg :=
  [Msg.assistant "" ["ls a"], Msg.user "<returncode>0</returncode>" "EMPTY",
    Msg.assistant "" ["ls b"], Msg.user "<returncode>0</returncode>" "EMPTY",
    Msg.assistant "" ["ls c"], Msg.user "<returncode>0</returncode>" "EMPTY",
    Msg.assistant "" ["ls d"], Msg.user "<returncode>0</returncode>" "EMPTY",
    Msg.assistant "" ["ls e"], Msg.user "<returncode>0</returncode>" "EMPTY",
    Msg.assistant "" ["grep zz x"], Msg.user "<returncode>1</returncode>" "EMPTY",
    Msg.assistant "" ["grep zz x"], Msg.user "<returncode>1</returncode>" "EMPTY",
    Msg.assistant "" ["grep zz x"], Msg.user "<returncode>1</returncode>" "EMPTY"]

/-- C3 counterexample: on a trace whose eight observed turns all issue
commands with first token in {find, grep, rg, ls} and in which no diff ever
appears, the strict driver does raise a loop abort at the eighth turn — but
with reason `repeated_failing_command:grep x3`, not `search_only_streak:8`
(nor `search_only_streak:9`), because the repeated-failing-command check runs
first and three identical failing greps end the window. -/
theorem C3_search_only_streak_counterexample :
    c3_ce_msgs.all (fun m => match m with
      | Msg.assistant _ cmds => cmds.all (fun c => base_command (pyStrip c) ∈ search_bases)
      | Msg.user _ sig => sig == "EMPTY"
      | Msg.other _ _ => false) = true ∧
    (run_agent_with_controls cfgStrict "EMPTY" c3_ce_msgs "Submitted" "m").emitted.length
      = 16 ∧
    (run_agent_with_controls cfgStrict "EMPTY" c3_ce_msgs "Submitted" "m").status
      = "LoopAborted" ∧
    (run_agent_with_controls cfgStrict "EMPTY" c3_ce_msgs "Submitted" "m").loop_abort_reason
      = "repeated_failing_command:grep x3" ∧
    (run_agent_with_controls cfgStrict "EMPTY" c3_ce_msgs "Submitted" "m").loop_abort_reason
      ≠ "search_only_streak:8" ∧
    (run_agent_with_controls cfgStrict "EMPTY" c3_ce_msgs "Submitted" "m").loop_abort_reason
      ≠ "search_only_streak:9" := by
  decide

theorem step_assistant_single (st : DriverState) (c : String) :
    step_assistant st [c] =
      { st with
          last_cmd := pyStrip c
          command_history := st.command_history ++ [pyStrip c] } := rfl

theorem string_ne_empty_of_head (s : String) (c : Char)
    (h : ∃ t, s.toList = c :: t) : s ≠ "" := by
  obtain ⟨t, ht⟩ := h
  intro hs
  rw [hs] at ht
  have h2 : ([] : List Char) = c :: t := ht
  exact List.noConfusion h2

theorem step_user_search (st : DriverState) (content : String)
    (hrc : extract_return_code content = 0)
    (hbase : base_command st.last_cmd ∈ search_bases)
    (hseen : st.seen_nonempty = false) :
    (step_user cfgStrict st content "EMPTY").state.search_streak
      = st.search_streak + 1 ∧
    (step_user cfgStrict st content "EMPTY").state.seen_nonempty = false ∧
    (step_user cfgStrict st content "EMPTY").abort_now =
      (if 8 ≤ st.search_streak + 1
        then "search_only_streak:" ++ natStr (st.search_streak + 1) else "") ∧
    (step_user cfgStrict st content "EMPTY").state.loop_abort_reason =
      (if 8 ≤ st.search_streak + 1
        then "search_only_streak:" ++ natStr (st.search_streak + 1)
        else st.loop_abort_reason) := by
  unfold step_user
  simp [hrc, hbase, hseen, cfgStrict, defaultDriverConfig]
  have hR := string_ne_empty_of_head
    ("search_only_streak:" ++ natStr (st.search_streak + 1)) 's'
    (head_append1 _ _ _ ⟨_, rfl⟩)
  by_cases h7 : 7 ≤ st.search_streak
  · simp [h7, hR]
  · simp [h7]

/-- The message stream of consecutive search turns: each pair is one assistant
message whose fenced command is the pair's first component, followed by the
observation with the pair's second component as content, with an empty diff
signature throughout. -/
def mkSearchMsgs : List (String × String) → List Msg
  | [] => []
  | p :: ps => Msg.assistant "" [p.1] :: Msg.user p.2 "EMPTY" :: mkSearchMsgs ps

theorem run_search_abort :
    ∀ (ps : List (String × String)) (st : DriverState) (rest : List Msg),
      (∀ p ∈ ps, base_command (pyStrip p.1) ∈ search_bases ∧
        extract_return_code p.2 = 0) →
      st.loop_abort_reason = "" → st.seen_nonempty = false →
      st.search_streak + ps.length = 8 → ps ≠ [] →
      (runMsgs cfgStrict st (mkSearchMsgs ps ++ rest)).2.2 = true ∧
      (runMsgs cfgStrict st (mkSearchMsgs ps ++ rest)).1.loop_abort_reason =
        "search_only_streak:8" := by
  intro ps
  induction ps with
  | nil =>
    intro st rest _ _ _ _ hne
    exact absurd rfl hne
  | cons p ps ih =>
    intro st rest hall hab hseen hsum _
    obtain ⟨hbase, hrc⟩ := hall p (by simp)
    have hst1b : base_command (step_assistant st [p.1]).last_cmd ∈ search_bases := by
      rw [step_assistant_single]
      exact hbase
    have hst1ab : (step_assistant st [p.1]).loop_abort_reason = "" := by
      rw [step_assistant_single]
      exact hab
    have hst1seen : (step_assistant st [p.1]).seen_nonempty = false := by
      rw [step_assistant_single]
      exact hseen
    have hst1ss : (step_assistant st [p.1]).search_streak = st.search_streak := by
      rw [step_assistant_single]
    obtain ⟨hS1, hS2, hS3, hS4⟩ :=
      step_user_search (step_assistant st [p.1]) p.2 hrc hst1b hst1seen
    rw [hst1ss] at hS1 hS3 hS4
    have hoff : ¬ cfgStrict.loop_policy = LoopPolicy.off := by decide
    rcases ps with _ | ⟨q, qs⟩
    · have h8 : st.search_streak + 1 = 8 := by
        simpa using hsum
      have h8le : 8 ≤ st.search_streak + 1 := le_of_eq h8.symm
      have habort : (step_user cfgStrict (step_assistant st [p.1]) p.2
          "EMPTY").state.loop_abort_reason = "search_only_streak:8" := by
        rw [hS4, if_pos h8le, h8]
        decide
      have hcond : cfgStrict.loop_policy = LoopPolicy.strict ∧
          (step_user cfgStrict (step_assistant st [p.1]) p.2
            "EMPTY").state.loop_abort_reason ≠ "" := by
        refine ⟨rfl, ?_⟩
        rw [habort]
        decide
      simp only [mkSearchMsgs, List.cons_append, List.nil_append, runMsgs,
        if_neg hoff, if_pos hcond]
      exact ⟨trivial, habort⟩
    · have hlen : (q :: qs).length = qs.length + 1 := rfl
      have hlt : ¬ 8 ≤ st.search_streak + 1 := by
        simp only [List.length_cons] at hsum
        omega
      have hnoab : (step_user cfgStrict (step_assistant st [p.1]) p.2
          "EMPTY").state.loop_abort_reason = "" := by
        rw [hS4, if_neg hlt]
        exact hab
      have hncond : ¬ (cfgStrict.loop_policy = LoopPolicy.strict ∧
          (step_user cfgStrict (step_assistant st [p.1]) p.2
            "EMPTY").state.loop_abort_reason ≠ "") := by
        rintro ⟨_, hno⟩
        exact hno hnoab
      have hrec := ih (step_user cfgStrict (step_assistant st [p.1]) p.2 "EMPTY").state
        rest (fun x hx => hall x (by simp [hx])) hnoab hS2
        (by
          rw [hS1]
          simp only [List.length_cons] at hsum ⊢
          omega)
        (by simp)
      simp only [mkSearchMsgs, List.cons_append, runMsgs, if_neg hoff, if_neg hncond]
      exact hrec

theorem empty_diff_mem (cfg : GateConfig) (cg : CompileGateResult) :
    "empty_diff" ∈ fail_reasons_of cfg "" cg := by
  unfold fail_reasons_of
  apply List.mem_append_left
  apply List.mem_append_left
  apply List.mem_append_left
  apply List.mem_append_left
  apply List.mem_append_left
  apply List.mem_append_left
  exact mem_if_singleton_of (by decide)

/-- C3 amended: under the strict policy with default thresholds, if the first
eight observed turns all issue commands whose first token is in
{find, grep, rg, ls}, no diff ever appears, and the turns do not concurrently
trigger the repeated-failing-command or sed-fail heuristics (each observed
return code is 0), then the driver raises the loop abort at the eighth turn
with reason `search_only_streak:8` (the counter is inclusive: 8, not 9), the
run status becomes `LoopAborted`, and since the diff is empty the gate reports
`empty_diff` and the candidate prediction is empty. -/
theorem C3_search_only_streak_amended :
    ∀ (ps : List (String × String)) (rest : List Msg) (ast amsg : String),
      ps.length = 8 →
      (∀ p ∈ ps, base_command (pyStrip p.1) ∈ search_bases ∧
        extract_return_code p.2 = 0) →
      (run_agent_with_controls cfgStrict "EMPTY" (mkSearchMsgs ps ++ rest) ast
        amsg).status = "LoopAborted" ∧
      (run_agent_with_controls cfgStrict "EMPTY" (mkSearchMsgs ps ++ rest) ast
        amsg).aborted = true ∧
      (run_agent_with_controls cfgStrict "EMPTY" (mkSearchMsgs ps ++ rest) ast
        amsg).loop_abort_reason = "search_only_streak:8" ∧
      (∀ (cfg : GateConfig) (cg : CompileGateResult),
        "empty_diff" ∈ (validate_patch_quality cfg "" cg).fail_reasons ∧
        (validate_patch_quality cfg "" cg).severity = "fail" ∧
        extract_patch cfg "" cg = "" ∧
        ∀ (att : Nat) (r : RunResult) (m : TestMetrics),
          (mkCandidate att (extract_patch cfg "" cg) r (validate_patch_quality cfg "" cg)
            m).prediction = "") := by
  intro ps rest ast amsg hlen hall
  obtain ⟨h1, h2⟩ := run_search_abort ps (initDriverState "EMPTY") rest hall rfl rfl
    (by rw [hlen]; rfl) (by intro h0; rw [h0] at hlen; cases hlen)
  have hgate : ∀ (cfg : GateConfig) (cg : CompileGateResult),
      "empty_diff" ∈ (validate_patch_quality cfg "" cg).fail_reasons ∧
      (validate_patch_quality cfg "" cg).severity = "fail" ∧
      extract_patch cfg "" cg = "" ∧
      ∀ (att : Nat) (r : RunResult) (m : TestMetrics),
        (mkCandidate att (extract_patch cfg "" cg) r (validate_patch_quality cfg "" cg)
          m).prediction = "" := by
    intro cfg cg
    have hmem := empty_diff_mem cfg cg
    have hne : fail_reasons_of cfg "" cg ≠ [] := by
      intro h0
      rw [h0] at hmem
      cases hmem
    have hex := extract_patch_of_fail cfg "" cg hne
    refine ⟨?_, ?_, hex, ?_⟩
    · rw [validate_fail_reasons_eq]
      exact hmem
    · rw [validate_eq_fail cfg "" cg hne]
    · intro att r m
      rw [hex]
      rfl
  unfold run_agent_with_controls
  simp [h1, h2]
  exact hgate

/-- Witness pairs for C3: eight distinct succeeding `ls` commands. -/
def c3_wpairs : List (String × String) :=
  [("ls a1", "<returncode>0</returncode>"), ("ls a2", "<returncode>0</returncode>"),
    ("ls a3", "<returncode>0</returncode>"), ("ls a4", "<returncode>0</returncode>"),
    ("ls a5", "<returncode>0</returncode>"), ("ls a6", "<returncode>0</returncode>"),
    ("ls a7", "<returncode>0</returncode>"), ("ls a8", "<returncode>0</returncode>")]

/-- Witness for C3: eight succeeding search turns abort the strict run with
reason `search_only_streak:8`. -/
theorem C3_search_only_streak_amended_witness :
    (run_agent_with_controls cfgStrict "EMPTY" (mkSearchMsgs c3_wpairs ++ []) "Submitted"
      "m").status = "LoopAborted" ∧
    (run_agent_with_controls cfgStrict "EMPTY" (mkSearchMsgs c3_wpairs ++ []) "Submitted"
      "m").loop_abort_reason = "search_only_streak:8" :=
  ⟨(C3_search_only_streak_amended c3_wpairs [] "Submitted" "m" (by decide) (by decide)).1,
    (C3_search_only_streak_amended c3_wpairs [] "Submitted" "m" (by decide)
      (by decide)).2.2.1⟩

/-! ## C9: git invocations during workspace acquisition -/

/-- C9: none of the git invocations `_setup_repository` performs — shallow
clone, fallback full clone, unshallow fetch, checkout — passes a `timeout`
keyword to `subprocess.run`; contrary to the specified 5-minute/30-second
deadlines, every call is unbounded. -/
theorem C9_setup_repository_no_timeouts :
    ∀ (repo base_commit repo_path : String) (shallow_clone_fails : Bool),
      (setup_repository_calls repo base_commit repo_path shallow_clone_fails).all
        (fun c => c.timeout.isNone) = true ∧
      ∀ call ∈ setup_repository_calls repo base_commit repo_path shallow_clone_fails,
        call.timeout = none := by
  intro repo bc path b
  cases b <;> simp [setup_repository_calls]

/-- Witness for C9: on a concrete instance with a succeeding shallow clone,
every spawned git call has no timeout. -/
theorem C9_setup_repository_no_timeouts_witness :
    (setup_repository_calls "x/y" "0a1b2c3d" "repo" false).all
      (fun c => c.timeout.isNone) = true :=
  (C9_setup_repository_no_timeouts "x/y" "0a1b2c3d" "repo" false).1
